import Mathlib

/-!
Verification of the skillseed-ai-tool quiz/recommendation service.

The development shallowly embeds the core of `AiService` (ai.service.ts):
the JSON-recovery helper `extractJson`, the deterministic scoring step of
`analyzeQuizAnswers`, the AI-narrative wrapper `generateAIAnalysis`, the
recommendation-category generators with their fallbacks, the quiz-resolution
algorithm `getLatestQuiz` with its flag self-repair, and the trait/career
extraction helpers used by `getCareerRecommendations`.

External collaborators are modelled as parameters:
  * the text generator (OpenAI chat completion) as an `Except Unit String`
    outcome (transport failure or returned text);
  * the platform JSON parser (`JSON.parse`) as an oracle
    `parse : String → Option JsonVal` (`none` models a parse exception);
  * the video-search provider call as an `Except Unit (List YTVideo)`.

Machine numbers in the scoring matrices are small integers; we use `Int`.
All definitions are total and executable; a thrown JS exception is modelled
by `Option`/`Except` or by the catch-branch value the source substitutes.
-/

/-! ### Character/list helpers (JS string primitives used by the source) -/

/-- `startsWithL pat l` : `l` starts with the pattern `pat` (JS `startsWith`). -/
def startsWithL : List Char → List Char → Bool
  | [], _ => true
  | _ :: _, [] => false
  | p :: ps, c :: cs => p = c && startsWithL ps cs

/-- JS `String.prototype.includes`: `containsSub hay needle`. -/
def containsSub (hay needle : List Char) : Bool :=
  startsWithL needle hay ||
    match hay with
    | [] => false
    | _ :: t => containsSub t needle

/-- JS `indexOf` for a single character. -/
def idxOfChar (c : Char) : List Char → Option Nat
  | [] => none
  | x :: xs => if x = c then some 0 else (idxOfChar c xs).map (· + 1)

/-- JS `lastIndexOf` for a single character. -/
def lastIdxOfChar (c : Char) (l : List Char) : Option Nat :=
  (idxOfChar c l.reverse).map (fun i => l.length - 1 - i)

/-- Whitespace recognised by `trim` (the source only ever trims ordinary
ASCII whitespace around model output). -/
def isWsChar (c : Char) : Bool :=
  c = ' ' || c = '\n' || c = '\t' || c = '\r'

/-- JS `String.prototype.trim`. -/
def trimChars (l : List Char) : List Char :=
  ((l.dropWhile isWsChar).reverse.dropWhile isWsChar).reverse

/-- Lower-casing used for the case-insensitive matches in the source. -/
def toLowerStr (s : String) : String :=
  String.mk (s.toList.map Char.toLower)

/-- Case-insensitive substring test (`text.toLowerCase().includes(k.toLowerCase())`,
and the case-insensitive regex tests `/kw/i.test(text)`). -/
def containsCI (hay needle : String) : Bool :=
  containsSub (toLowerStr hay).toList (toLowerStr needle).toList

/-! ### JSON values

`JsonVal` models the values `JSON.parse` can produce.  Property access,
truthiness and object spread are modelled after the ECMAScript semantics the
source relies on. -/

inductive JsonVal where
  | null : JsonVal
  | bool (b : Bool) : JsonVal
  | num (n : Int) : JsonVal
  | str (s : String) : JsonVal
  | arr (items : List JsonVal) : JsonVal
  | obj (fields : List (String × JsonVal)) : JsonVal

/-- JS property read `v[k]`; `none` models `undefined` (also for reads on
primitives, which auto-box and yield `undefined` for non-index keys). -/
def getField (v : JsonVal) (k : String) : Option JsonVal :=
  match v with
  | .obj fs => (fs.find? (fun p => p.1 == k)).map (·.2)
  | _ => none

/-- JS truthiness of a possibly-undefined value. -/
def truthy : Option JsonVal → Bool
  | none => false
  | some .null => false
  | some (.bool b) => b
  | some (.num n) => !(n == 0)
  | some (.str s) => !(s == "")
  | some (.arr _) => true
  | some (.obj _) => true

/-- Index properties contributed by spreading a string. -/
def strIdxFields : List Char → Nat → List (String × JsonVal)
  | [], _ => []
  | c :: rest, i => (toString i, JsonVal.str (String.mk [c])) :: strIdxFields rest (i + 1)

/-- Index properties contributed by spreading an array. -/
def arrIdxFields : List JsonVal → Nat → List (String × JsonVal)
  | [], _ => []
  | v :: rest, i => (toString i, v) :: arrIdxFields rest (i + 1)

/-- Enumerable own properties taken by JS object spread `{...v}`. -/
def spreadFields : JsonVal → List (String × JsonVal)
  | .obj fs => fs
  | .str s => strIdxFields s.toList 0
  | .arr xs => arrIdxFields xs 0
  | _ => []

/-- JS object key assignment: overwrite in place if the key exists
(keeping its position), else append. -/
def setEntry {α : Type} : List (String × α) → String → α → List (String × α)
  | [], k, v => [(k, v)]
  | p :: ps, k, v => if p.1 = k then (k, v) :: ps else p :: setEntry ps k v

/-! ### `AiService.extractJson` (part_001 lines 396-433)

The regexes are embedded directly:
`/```(?:json)?([\s\S]*?)```/` finds a fenced block (first fence, optional
`json` tag, lazily up to the next fence, backtracking over the optional
`json` if needed); `/({[\s\S]*})/` greedily spans from the first `{` to the
last `}` after it.  `JSON.parse` is the oracle `parseOk`. -/

/-- Characters before the first closing fence (the lazy group body). -/
def findClose : List Char → Option (List Char)
  | [] => none
  | c :: cs =>
    if startsWithL ("```".toList) (c :: cs) then some []
    else (findClose cs).map (c :: ·)

/-- Group captured by `/```(?:json)?([\s\S]*?)```/`, if any. -/
def findFence : List Char → Option (List Char)
  | [] => none
  | c :: cs =>
    if startsWithL ("```".toList) (c :: cs) then
      let rest := (c :: cs).drop 3
      let restJ := if startsWithL ("json".toList) rest then rest.drop 4 else rest
      match findClose restJ with
      | some grp => some grp
      | none =>
        if startsWithL ("json".toList) rest then findClose rest else none
    else findFence cs

/-- Group captured by `/({[\s\S]*})/`: first `{` to the last `}` after it. -/
def braceSpan (l : List Char) : Option (List Char) :=
  match idxOfChar '{' l, lastIdxOfChar '}' l with
  | some i, some j => if i < j then some ((l.drop i).take (j - i + 1)) else none
  | _, _ => none

/-- One pass of `text.replace(/```json|```/g, '')`. -/
def stripFencesAux : Nat → List Char → List Char
  | 0, _ => []
  | _, [] => []
  | fuel + 1, c :: cs =>
    if startsWithL ("```json".toList) (c :: cs) then stripFencesAux fuel (cs.drop 6)
    else if startsWithL ("```".toList) (c :: cs) then stripFencesAux fuel (cs.drop 2)
    else c :: stripFencesAux fuel cs

/-- `text.replace(/```json|```/g, '')` (fuel is the length, which suffices:
every step consumes at least one character). -/
def stripFences (l : List Char) : List Char :=
  stripFencesAux l.length l

/-- The cleanup retry of `extractJson`: strip fence tokens, trim, and if the
text contains `\x7b` and `\x7d`, cut `substring(indexOf, lastIndexOf + 1)`
when that span is non-empty. -/
def cleanupText (text : String) : String :=
  let cleaned := trimChars (stripFences text.toList)
  if cleaned.contains '{' && cleaned.contains '}' then
    match idxOfChar '{' cleaned, lastIdxOfChar '}' cleaned with
    | some si, some ej =>
      if ej + 1 > si then String.mk ((cleaned.drop si).take (ej + 1 - si))
      else String.mk cleaned
    | _, _ => String.mk cleaned
  else String.mk cleaned

/-- First candidate of `extractJson`: the fenced block if matched, else the
brace span, else the whole text; in each case trimmed. -/
def firstCandidate (text : String) : String :=
  match findFence text.toList with
  | some g => String.mk (trimChars g)
  | none =>
    match braceSpan text.toList with
    | some g => String.mk (trimChars g)
    | none => String.mk (trimChars text.toList)

/-- `AiService.extractJson`: validate the first candidate with `JSON.parse`;
on failure run the cleanup pass and validate once more; on total failure
return the literal `"[]"`. -/
def extractJson (parseOk : String → Bool) (text : String) : String :=
  let cand := firstCandidate text
  if parseOk cand then cand
  else
    let cleaned := cleanupText text
    if parseOk cleaned then cleaned
    else "[]"

/-- `parse` success as a Bool (the source's "does `JSON.parse` throw"). -/
def parseOkOf (parse : String → Option JsonVal) (s : String) : Bool :=
  (parse s).isSome

/-- A concrete `JSON.parse` oracle for the closed test inputs of this file:
it agrees with the real `JSON.parse` on every string the inputs make
`extractJson` consult (the plain-garbage candidate strings fail to parse,
and `"[]"` parses to the empty array). -/
def parseDemo (s : String) : Option JsonVal :=
  if s == "[]" then some (JsonVal.arr []) else none

/-- Shared lemma: the result of `extractJson` always satisfies the parse
oracle, and when both recovery candidates fail it is the literal `"[]"`. -/
theorem extractJson_parses_aux (parseOk : String → Bool) (text : String)
    (h : parseOk "[]" = true) :
    parseOk (extractJson parseOk text) = true ∧
      (parseOk (firstCandidate text) = false →
        parseOk (cleanupText text) = false →
        extractJson parseOk text = "[]") := by
  by_cases h1 : parseOk (firstCandidate text)
  · constructor
    · simp [extractJson, h1]
    · intro hc
      simp [h1] at hc
  · by_cases h2 : parseOk (cleanupText text)
    · constructor
      · simp [extractJson, h1, h2]
      · intro _ hc
        simp [h2] at hc
    · constructor
      · simpa [extractJson, h1, h2] using h
      · intro _ _
        simp [extractJson, h1, h2]

/-- C9: `extractJson` never throws (it is a total function) and its result
always satisfies the parse oracle — it returns the first recovered candidate
that parses (fenced block / brace span / whole text, then one cleanup retry)
and otherwise the literal `"[]"`, so a downstream `JSON.parse` of its result
cannot fail provided `JSON.parse` accepts `"[]"`. -/
theorem extractJson_total_parses_c9 (parseOk : String → Bool) (text : String)
    (h : parseOk "[]" = true) :
    parseOk (extractJson parseOk text) = true ∧
      (parseOk (firstCandidate text) = false →
        parseOk (cleanupText text) = false →
        extractJson parseOk text = "[]") :=
  extractJson_parses_aux parseOk text h

/-- Witness for C9 at a concrete unparseable generator output. -/
theorem extractJson_total_parses_c9_witness :
    parseOkOf parseDemo (extractJson (parseOkOf parseDemo) "plain refusal text") = true ∧
      (parseOkOf parseDemo (firstCandidate "plain refusal text") = false →
        parseOkOf parseDemo (cleanupText "plain refusal text") = false →
        extractJson (parseOkOf parseDemo) "plain refusal text" = "[]") :=
  extractJson_total_parses_c9 (parseOkOf parseDemo) "plain refusal text" (by decide)

/-! ### The scoring step of `AiService.analyzeQuizAnswers` (part_001 lines 616-666)

`loadAgeScales` (lines 524-556) returns a fixed table, embedded below.
A question's scoring matrix is an object mapping career-area names to
per-option point arrays; JS object key iteration follows insertion order,
which the association lists preserve. -/

structure AgeScale where
  range : String
  careerAreas : List String
deriving DecidableEq

/-- The static `scales` table of `loadAgeScales`. -/
def ageScales : List AgeScale :=
  [ ⟨"6-8", ["Art", "Science", "Technology", "Nature", "Communication"]⟩,
    ⟨"9-12", ["Art", "Science", "Technology", "Nature", "Communication", "Leadership"]⟩,
    ⟨"13-15", ["Art", "Science", "Technology", "Nature", "Communication", "Leadership", "Business"]⟩,
    ⟨"16-18", ["Art", "Science", "Technology", "Nature", "Communication", "Leadership", "Business", "Healthcare"]⟩ ]

structure Question where
  text : String
  answers : List String
  scoring : Option (List (String × List Int))
deriving DecidableEq

/-- `scores = \x7b\x7d; ageScale.careerAreas.forEach(area => scores[area] = 0)`. -/
def initScores (areas : List String) : List (String × Int) :=
  areas.foldl (fun acc a => setEntry acc a 0) []

/-- `if (scores.hasOwnProperty(area)) scores[area] += d` — a no-op when the
area is not a key of the running score object. -/
def bumpScore : List (String × Int) → String → Int → List (String × Int)
  | [], _, _ => []
  | p :: ps, k, d => if p.1 = k then (p.1, p.2 + d) :: ps else p :: bumpScore ps k d

/-- `question.scoring[area][answer] || 0`: an out-of-range (or negative)
answer index reads `undefined`, which `|| 0` turns into `0`. -/
def matrixVal (vals : List Int) (answer : Int) : Int :=
  if answer < 0 then 0 else vals.getD answer.toNat 0

/-- One loop body of `quiz.answers.forEach`: add the matrix row values for
this answer to every tracked area (`Object.keys(question.scoring)` iterates
the matrix in insertion order). -/
def applyQuestionScoring (scores : List (String × Int)) (q : Question) (answer : Int) :
    List (String × Int) :=
  match q.scoring with
  | none => scores
  | some m => m.foldl (fun acc p => bumpScore acc p.1 (matrixVal p.2 answer)) scores

/-- `quiz.answers.forEach((answer, index) => ...)`: answers beyond the
question list find `questions[index] === undefined` and are skipped. -/
def processAnswers (questions : List Question) :
    List Int → Nat → List (String × Int) → List (String × Int)
  | [], _, scores => scores
  | a :: rest, i, scores =>
    let scores' :=
      match questions[i]? with
      | some q => applyQuestionScoring scores q a
      | none => scores
    processAnswers questions rest (i + 1) scores'

/-- The score-accumulation step of `analyzeQuizAnswers`. -/
def computeScores (areas : List String) (questions : List Question) (answers : List Int) :
    List (String × Int) :=
  processAnswers questions answers 0 (initScores areas)

/-- Stable descending insertion: the element is placed after every earlier
element whose score is at least as large.  Extensionally equal to the
ES2019-stable `Array.prototype.sort` with comparator `(b - a)` used by the
source. -/
def insertDesc (p : String × Int) : List (String × Int) → List (String × Int)
  | [] => [p]
  | q :: qs => if p.2 < q.2 then q :: insertDesc p qs else p :: q :: qs

/-- `Object.entries(scores).sort(([,a],[,b]) => b - a)` (stable). -/
def sortByScoreDesc : List (String × Int) → List (String × Int)
  | [] => []
  | p :: ps => insertDesc p (sortByScoreDesc ps)

/-- `.slice(0, 3).map(([area]) => area)`: the ranked top-3 career areas. -/
def topCareerAreasOf (scores : List (String × Int)) : List String :=
  ((sortByScoreDesc scores).take 3).map Prod.fst

/-- Score lookup in the produced mapping (JS property read). -/
def lookupScore (scores : List (String × Int)) (k : String) : Option Int :=
  (scores.find? (fun p => p.1 == k)).map (·.2)

/-! ### `AiService.generateAIAnalysis` (part_001 lines 668-709) and the
analysis record of `analyzeQuizAnswers` -/

/-- JS `Array.prototype.join(sep)`. -/
def joinSep (sep : String) : List String → String
  | [] => ""
  | [x] => x
  | x :: y :: rest => x ++ sep ++ joinSep sep (y :: rest)

/-- The catch-branch canned narrative of `generateAIAnalysis`. -/
def fallbackAiAnalysis (topCareerAreas : List String) : JsonVal :=
  .obj
    [ ("explanation", .str ("Based on your answers, you show strong interest in "
        ++ joinSep " and " topCareerAreas ++ "!")),
      ("skills", .arr [.str "Critical thinking", .str "Problem solving", .str "Communication"]),
      ("activities", .arr [.str "Join relevant clubs", .str "Try hands-on projects",
        .str "Explore online courses"]),
      ("encouragement", .str "Keep exploring your interests and trying new things!") ]

/-- `generateAIAnalysis`: on a transport error, or if `JSON.parse` of the
extracted text throws, the catch substitutes the canned narrative; otherwise
the parsed value is returned as-is (whatever its shape). -/
def generateAIAnalysis (parse : String → Option JsonVal) (topCareerAreas : List String)
    (gen : Except Unit String) : JsonVal :=
  match gen with
  | .error _ => fallbackAiAnalysis topCareerAreas
  | .ok content =>
    match parse (extractJson (parseOkOf parse) content) with
    | none => fallbackAiAnalysis topCareerAreas
    | some v => v

structure AnalysisResult where
  topCareerAreas : List String
  scores : List (String × Int)
  aiAnalysis : JsonVal
  ageRange : String

/-- `analyzeQuizAnswers` for a quiz with the given age range, questions and
answers: `none` models the `BadRequestException` for an unsupported age
range (the `analysisDate` timestamp is not modelled).  The generator outcome
and the platform JSON parser are passed as parameters. -/
def analyzeQuizAnswersOn (parse : String → Option JsonVal) (gen : Except Unit String)
    (ageRange : String) (questions : List Question) (answers : List Int) :
    Option AnalysisResult :=
  match ageScales.find? (fun s => s.range == ageRange) with
  | none => none
  | some scale =>
    let scores := computeScores scale.careerAreas questions answers
    let top := topCareerAreasOf scores
    some
      { topCareerAreas := top
        scores := scores
        aiAnalysis := generateAIAnalysis parse top gen
        ageRange := ageRange }

/-- The question used by the spec's scoring scenario: every option array has
four entries and the matrix is `\x7bArt:[3,2,1,0], Science:[0,1,2,3]\x7d`. -/
def demoQuestion : Question :=
  { text := "Do you like to draw?"
    answers := ["A lot", "Often", "Sometimes", "Not much"]
    scoring := some [("Art", [3, 2, 1, 0]), ("Science", [0, 1, 2, 3])] }

/-- C1: for age range 6-8, five copies of the scenario question and answers
`[0,0,3,3,1]`, the scoring step yields Art = 8 and Science = 7 and ranks Art
above Science in `topCareerAreas` (here `["Art", "Science", "Technology"]`,
the zero-scored areas following in declaration order). -/
theorem scoring_scenario_c1 :
    (analyzeQuizAnswersOn parseDemo (Except.error ()) "6-8"
        (List.replicate 5 demoQuestion) [0, 0, 3, 3, 1]).map
      (fun r => (lookupScore r.scores "Art", lookupScore r.scores "Science", r.topCareerAreas))
      = some (some 8, some 7, ["Art", "Science", "Technology"]) := by
  rfl

/-! ### C7: the score mapping has exactly the configured keys -/

theorem setEntry_of_not_mem {α : Type} (l : List (String × α)) (k : String) (v : α)
    (h : k ∉ l.map Prod.fst) : setEntry l k v = l ++ [(k, v)] := by
  induction l with
  | nil => rfl
  | cons p ps ih =>
    simp only [List.map_cons, List.mem_cons, not_or] at h
    have hne : ¬p.1 = k := fun hk => h.1 hk.symm
    simp [setEntry, hne, ih h.2]

theorem initScores_aux_keys (areas : List String) :
    ∀ acc : List (String × Int), areas.Nodup → (∀ a ∈ areas, a ∉ acc.map Prod.fst) →
      (areas.foldl (fun b a => setEntry b a 0) acc).map Prod.fst = acc.map Prod.fst ++ areas := by
  induction areas with
  | nil => intro acc _ _; simp
  | cons a rest ih =>
    intro acc hnd hmem
    have ha : a ∉ acc.map Prod.fst := hmem a (by simp)
    rw [List.foldl_cons, setEntry_of_not_mem acc a 0 ha,
      ih (acc ++ [(a, 0)]) hnd.of_cons ?_]
    · simp
    · intro b hb
      have hbne : b ≠ a := fun h => (List.nodup_cons.mp hnd).1 (h ▸ hb)
      have hbacc : b ∉ acc.map Prod.fst := hmem b (List.mem_cons_of_mem _ hb)
      simp [hbne, hbacc]

theorem initScores_keys (areas : List String) (h : areas.Nodup) :
    (initScores areas).map Prod.fst = areas := by
  simpa [initScores] using initScores_aux_keys areas [] h (by simp)

theorem bumpScore_keys (l : List (String × Int)) (k : String) (d : Int) :
    (bumpScore l k d).map Prod.fst = l.map Prod.fst := by
  induction l with
  | nil => rfl
  | cons p ps ih => by_cases h : p.1 = k <;> simp [bumpScore, h, ih]

theorem foldl_bump_keys (m : List (String × List Int)) (answer : Int) :
    ∀ scores : List (String × Int),
      (m.foldl (fun acc p => bumpScore acc p.1 (matrixVal p.2 answer)) scores).map Prod.fst
        = scores.map Prod.fst := by
  induction m with
  | nil => intro scores; rfl
  | cons p ps ih => intro scores; rw [List.foldl_cons, ih, bumpScore_keys]

theorem applyQuestionScoring_keys (scores : List (String × Int)) (q : Question) (answer : Int) :
    (applyQuestionScoring scores q answer).map Prod.fst = scores.map Prod.fst := by
  unfold applyQuestionScoring
  cases q.scoring with
  | none => rfl
  | some m => exact foldl_bump_keys m answer scores

theorem processAnswers_keys (questions : List Question) (answers : List Int) :
    ∀ (i : Nat) (scores : List (String × Int)),
      (processAnswers questions answers i scores).map Prod.fst = scores.map Prod.fst := by
  induction answers with
  | nil => intro i scores; rfl
  | cons a rest ih =>
    intro i scores
    rcases h : questions[i]? with _ | q
    · simp only [processAnswers, h]
      rw [ih]
    · simp only [processAnswers, h]
      rw [ih, applyQuestionScoring_keys]

theorem computeScores_keys (areas : List String) (h : areas.Nodup)
    (questions : List Question) (answers : List Int) :
    (computeScores areas questions answers).map Prod.fst = areas := by
  unfold computeScores
  rw [processAnswers_keys, initScores_keys areas h]

/-- C7: the scoring step is total (all its functions are structural — no
exception is possible for any question list, scoring matrices or answer
array, shorter or longer than the questions), and the key set of the
returned score mapping is exactly the career-area list configured for the
age range — no other area ever appears. -/
theorem scoring_keys_exact_c7 (scale : AgeScale) (h : scale ∈ ageScales)
    (questions : List Question) (answers : List Int) :
    (computeScores scale.careerAreas questions answers).map Prod.fst = scale.careerAreas := by
  have hall : ∀ s ∈ ageScales, s.careerAreas.Nodup := by decide
  exact computeScores_keys _ (hall scale h) _ _

/-- Witness for C7: the 6-8 scale, with an answer array shorter than the
question list. -/
theorem scoring_keys_exact_c7_witness :
    (computeScores ["Art", "Science", "Technology", "Nature", "Communication"]
        (List.replicate 5 demoQuestion) [0, 0, 3]).map Prod.fst
      = ["Art", "Science", "Technology", "Nature", "Communication"] :=
  scoring_keys_exact_c7
    ⟨"6-8", ["Art", "Science", "Technology", "Nature", "Communication"]⟩
    (by decide) (List.replicate 5 demoQuestion) [0, 0, 3]

/-! ### C8: the ranked top-3 list -/

theorem mem_insertDesc {p q : String × Int} {l : List (String × Int)} :
    q ∈ insertDesc p l ↔ q = p ∨ q ∈ l := by
  induction l with
  | nil => simp [insertDesc]
  | cons r rs ih =>
    by_cases h : p.2 < r.2
    · simp [insertDesc, h, ih]
      tauto
    · simp [insertDesc, h, ih]

theorem insertDesc_sorted (p : String × Int) (l : List (String × Int))
    (h : l.Pairwise (fun a b => b.2 ≤ a.2)) :
    (insertDesc p l).Pairwise (fun a b => b.2 ≤ a.2) := by
  induction l with
  | nil => simp [insertDesc]
  | cons q qs ih =>
    rcases List.pairwise_cons.mp h with ⟨hq, hqs⟩
    by_cases hlt : p.2 < q.2
    · simp only [insertDesc, if_pos hlt]
      refine List.pairwise_cons.mpr ⟨?_, ih hqs⟩
      intro x hx
      rcases mem_insertDesc.mp hx with rfl | hx'
      · exact le_of_lt hlt
      · exact hq x hx'
    · simp only [insertDesc, if_neg hlt]
      refine List.pairwise_cons.mpr ⟨?_, h⟩
      intro x hx
      rcases List.mem_cons.mp hx with rfl | hx'
      · exact le_of_not_lt hlt
      · exact le_trans (hq x hx') (le_of_not_lt hlt)

theorem sortByScoreDesc_sorted (l : List (String × Int)) :
    (sortByScoreDesc l).Pairwise (fun a b => b.2 ≤ a.2) := by
  induction l with
  | nil => simp [sortByScoreDesc]
  | cons p ps ih => exact insertDesc_sorted p _ ih

theorem insertDesc_filter (p : String × Int) (l : List (String × Int)) (c : Int) :
    (insertDesc p l).filter (fun q => q.2 == c)
      = if p.2 = c then p :: l.filter (fun q => q.2 == c)
        else l.filter (fun q => q.2 == c) := by
  induction l with
  | nil => by_cases h : p.2 = c <;> simp [insertDesc, List.filter_cons, h]
  | cons q qs ih =>
    by_cases hlt : p.2 < q.2
    · simp only [insertDesc, if_pos hlt]
      by_cases hpc : p.2 = c
      · have hqc : ¬(q.2 = c) := by omega
        simp [List.filter_cons, hqc, ih, hpc]
      · simp [List.filter_cons, ih, hpc]
    · simp only [insertDesc, if_neg hlt]
      by_cases hpc : p.2 = c <;> simp [List.filter_cons, hpc]

theorem sortByScoreDesc_filter (l : List (String × Int)) (c : Int) :
    (sortByScoreDesc l).filter (fun q => q.2 == c) = l.filter (fun q => q.2 == c) := by
  induction l with
  | nil => rfl
  | cons p ps ih =>
    show (insertDesc p (sortByScoreDesc ps)).filter _ = _
    rw [insertDesc_filter]
    by_cases h : p.2 = c <;> simp [List.filter_cons, h, ih]

/-- C8: the ranked `topCareerAreas` list has length at most 3 and comes from
a take of the stable descending sort: the taken prefix is ordered by
descending score (`b.2 ≤ a.2` pairwise), and for every score value the
elements carrying it appear in exactly their original order (the stability
equation), i.e. ties are broken by the declaration order of the age range's
career-area list, from which the score mapping is built in order. -/
theorem top_areas_ranked_c8 (scores : List (String × Int)) :
    (topCareerAreasOf scores).length ≤ 3 ∧
      ((sortByScoreDesc scores).take 3).Pairwise (fun a b => b.2 ≤ a.2) ∧
      ∀ c : Int, (sortByScoreDesc scores).filter (fun q => q.2 == c)
          = scores.filter (fun q => q.2 == c) := by
  refine ⟨?_, ?_, fun c => sortByScoreDesc_filter scores c⟩
  · simp [topCareerAreasOf, List.length_take]
  · exact List.Pairwise.sublist (List.take_sublist 3 _) (sortByScoreDesc_sorted scores)

/-! ### C2: `analyzeQuizAnswers` on unparseable generator text -/

theorem insertDesc_length (p : String × Int) (l : List (String × Int)) :
    (insertDesc p l).length = l.length + 1 := by
  induction l with
  | nil => rfl
  | cons q qs ih => by_cases h : p.2 < q.2 <;> simp [insertDesc, h, ih]

theorem sortByScoreDesc_length (l : List (String × Int)) :
    (sortByScoreDesc l).length = l.length := by
  induction l with
  | nil => rfl
  | cons p ps ih =>
    show (insertDesc p (sortByScoreDesc ps)).length = ps.length + 1
    rw [insertDesc_length, ih]

theorem topCareerAreasOf_ne_nil (scores : List (String × Int)) (h : 0 < scores.length) :
    topCareerAreasOf scores ≠ [] := by
  have hpos : 0 < (topCareerAreasOf scores).length := by
    simp [topCareerAreasOf, List.length_take, sortByScoreDesc_length]
    omega
  exact List.length_pos.mp hpos

theorem computeScores_length_of_find (scale : AgeScale) (ageRange : String)
    (hscale : ageScales.find? (fun s => s.range == ageRange) = some scale)
    (questions : List Question) (answers : List Int) :
    0 < (computeScores scale.careerAreas questions answers).length := by
  have hmem : scale ∈ ageScales := List.mem_of_find?_eq_some hscale
  have hall : ∀ s ∈ ageScales, s.careerAreas.Nodup ∧ s.careerAreas ≠ [] := by decide
  have hkeys := computeScores_keys scale.careerAreas (hall scale hmem).1 questions answers
  have hlen := congrArg List.length hkeys
  simp only [List.length_map] at hlen
  rw [hlen]
  exact List.length_pos.mpr (hall scale hmem).2

/-- C2 amended: for a supported age range, when the generator returns text
that is not parseable JSON (both the recovered candidate and the cleanup
retry fail), `analyzeQuizAnswers` still returns a result with non-empty
`topCareerAreas`, but its `aiAnalysis` is the parsed empty array `[]` (so it
has no `explanation` field at all): `extractJson` converts the garbage to
the literal `"[]"`, which `JSON.parse` accepts, so the catch-branch canned
narrative is not reached.  That narrative is substituted exactly when the
generator call itself fails (transport error), as the final conjunct
shows. -/
theorem analysis_garbage_amended_c2 (parse : String → Option JsonVal)
    (ageRange : String) (questions : List Question) (answers : List Int)
    (content : String) (scale : AgeScale)
    (hscale : ageScales.find? (fun s => s.range == ageRange) = some scale)
    (h1 : parseOkOf parse (firstCandidate content) = false)
    (h2 : parseOkOf parse (cleanupText content) = false)
    (h3 : parse "[]" = some (JsonVal.arr [])) :
    ∃ r, analyzeQuizAnswersOn parse (Except.ok content) ageRange questions answers = some r ∧
      r.topCareerAreas ≠ [] ∧
      r.aiAnalysis = JsonVal.arr [] ∧
      analyzeQuizAnswersOn parse (Except.error ()) ageRange questions answers
        = some { r with aiAnalysis := fallbackAiAnalysis r.topCareerAreas } := by
  have hpok : parseOkOf parse "[]" = true := by simp [parseOkOf, h3]
  have hext : extractJson (parseOkOf parse) content = "[]" :=
    (extractJson_parses_aux (parseOkOf parse) content hpok).2 h1 h2
  have htop : topCareerAreasOf (computeScores scale.careerAreas questions answers) ≠ [] :=
    topCareerAreasOf_ne_nil _ (computeScores_length_of_find scale ageRange hscale questions answers)
  refine ⟨{ topCareerAreas := topCareerAreasOf (computeScores scale.careerAreas questions answers)
            scores := computeScores scale.careerAreas questions answers
            aiAnalysis := JsonVal.arr []
            ageRange := ageRange }, ?_, htop, rfl, ?_⟩
  · simp [analyzeQuizAnswersOn, hscale, generateAIAnalysis, hext, h3]
  · simp [analyzeQuizAnswersOn, hscale, generateAIAnalysis]

/-- C2 counterexample: at a concrete supported quiz and concrete unparseable
generator text, the returned `aiAnalysis` is the empty array and its
`explanation` read is `undefined` — not a non-empty string as the claim
asserts. -/
theorem analysis_garbage_counterexample_c2 :
    (analyzeQuizAnswersOn parseDemo (Except.ok "I like this student a lot") "6-8"
        (List.replicate 5 demoQuestion) [0, 0, 3, 3, 1]).map (fun r => r.aiAnalysis)
      = some (JsonVal.arr []) ∧
    (analyzeQuizAnswersOn parseDemo (Except.ok "I like this student a lot") "6-8"
        (List.replicate 5 demoQuestion) [0, 0, 3, 3, 1]).map
        (fun r => getField r.aiAnalysis "explanation")
      = some none :=
  ⟨rfl, rfl⟩

/-- Witness for the amended C2 at a concrete quiz and concrete garbage. -/
theorem analysis_garbage_amended_c2_witness :
    ∃ r, analyzeQuizAnswersOn parseDemo (Except.ok "unstructured reply") "6-8"
        (List.replicate 5 demoQuestion) [0, 0, 3, 3, 1] = some r ∧
      r.topCareerAreas ≠ [] ∧
      r.aiAnalysis = JsonVal.arr [] ∧
      analyzeQuizAnswersOn parseDemo (Except.error ()) "6-8"
          (List.replicate 5 demoQuestion) [0, 0, 3, 3, 1]
        = some { r with aiAnalysis := fallbackAiAnalysis r.topCareerAreas } :=
  analysis_garbage_amended_c2 parseDemo "6-8" (List.replicate 5 demoQuestion)
    [0, 0, 3, 3, 1] "unstructured reply"
    ⟨"6-8", ["Art", "Science", "Technology", "Nature", "Communication"]⟩
    rfl rfl rfl rfl

/-! ### The AI-generated recommendation categories (part_001 lines 799-1122)

`generateResourceRecommendations`, `generateEducationalGames` and
`generateBookRecommendations` share one shape: call the generator (the
prompt, built from `careerAreas`/`ageRange`, only feeds that external call,
modelled by the `Except` outcome), run `extractJson`, `JSON.parse` the
result, unwrap/wrap it into an array, and stamp each element; the catch
branch returns the category's hardcoded fallback list.  A `null` parse
result makes the property read `games.games` (etc.) throw, which the inner
catch rethrows into the outer catch. -/

/-- The array normalisation: keep an array; unwrap `v.field` when `v` is a
non-array whose `field` is an array; otherwise wrap the single value.
`none` models the `TypeError` thrown by reading a property of `null`. -/
def normalizeCategory (v : JsonVal) (field : String) : Option (List JsonVal) :=
  match v with
  | .arr xs => some xs
  | .null => none
  | _ =>
    match getField v field with
    | some (.arr xs) => some xs
    | _ => some [v]

/-- `(\x7b...game, type: tag\x7d)`: spread the element and set `type`. -/
def stampType (v : JsonVal) (tag : String) : JsonVal :=
  .obj (setEntry (spreadFields v) "type" (.str tag))

/-- The resource stamp also copies `resource.type || 'website'` into
`resourceType` before overwriting `type`. -/
def stampResource (v : JsonVal) : JsonVal :=
  let rtype := if truthy (getField v "type") then (getField v "type").getD .null
               else .str "website"
  .obj (setEntry (setEntry (spreadFields v) "resourceType" rtype) "type"
    (.str "learning_resource"))

/-- Lookup in a small static string table (JS object indexing). -/
def lookupStr (m : List (String × String)) (k : String) : Option String :=
  (m.find? (fun p => p.1 == k)).map (·.2)

def difficultyByAge : List (String × String) :=
  [("6-8", "Easy"), ("9-12", "Easy-Medium"), ("13-15", "Medium"), ("16-18", "Medium-Hard")]

def skillLevelByAge : List (String × String) :=
  [("6-8", "Beginner"), ("9-12", "Beginner to Intermediate"), ("13-15", "Intermediate"),
   ("16-18", "Intermediate to Advanced")]

/-- The hardcoded fallback games (generic, difficulty keyed by age range). -/
def fallbackGames (ageRange : String) : List JsonVal :=
  [ .obj
      [ ("name", .str "Career Explorer Game"),
        ("description", .str "Create a simple board game about different careers and interests"),
        ("category", .str "Creative"),
        ("duration", .str "30-45 minutes"),
        ("difficulty", .str ((lookupStr difficultyByAge ageRange).getD "Easy")),
        ("type", .str "educational_game") ],
    .obj
      [ ("name", .str "Skills Challenge"),
        ("description", .str "A fun activity to practice different skills related to various career fields"),
        ("category", .str "Activity"),
        ("duration", .str "20-30 minutes"),
        ("difficulty", .str ((lookupStr difficultyByAge ageRange).getD "Easy")),
        ("type", .str "educational_game") ] ]

/-- The hardcoded fallback resources (skill level keyed by age range). -/
def fallbackResources (ageRange : String) : List JsonVal :=
  [ .obj
      [ ("title", .str "Khan Academy"),
        ("resourceType", .str "website"),
        ("description", .str "Free educational platform with courses in various subjects"),
        ("skillLevel", .str ((lookupStr skillLevelByAge ageRange).getD "Beginner to Advanced")),
        ("estimatedTimeToComplete", .str "Self-paced"),
        ("type", .str "learning_resource") ],
    .obj
      [ ("title", .str "Career Exploration Guide"),
        ("resourceType", .str "ebook"),
        ("description", .str "Interactive guide to various career paths and required skills"),
        ("skillLevel", .str ((lookupStr skillLevelByAge ageRange).getD "Beginner")),
        ("estimatedTimeToComplete", .str "2-3 hours"),
        ("type", .str "learning_resource") ] ]

/-- The per-age-range hardcoded fallback books. -/
def ageAppropriateBooks : List (String × List JsonVal) :=
  [ ("6-8",
      [ .obj
          [ ("title", .str "Oh, the Places You\x27ll Go!"),
            ("author", .str "Dr. Seuss"),
            ("description", .str "A colorful book about life\x27s journey and possibilities"),
            ("isbn", .str "9780679805274"),
            ("url", .str "https://www.google.com/search?q=Oh+the+Places+You\x27ll+Go+Dr+Seuss+book"),
            ("type", .str "educational_book") ] ]),
    ("9-12",
      [ .obj
          [ ("title", .str "What Do You Want to Be When You Grow Up?"),
            ("author", .str "DK Publishing"),
            ("description", .str "Explores different career paths for young readers"),
            ("isbn", .str "9781465479945"),
            ("url", .str "https://www.google.com/search?q=What+Do+You+Want+to+Be+When+You+Grow+Up+DK+Publishing+book"),
            ("type", .str "educational_book") ] ]),
    ("13-15",
      [ .obj
          [ ("title", .str "You Can Be Anything!"),
            ("author", .str "Gary Bolles"),
            ("description", .str "Guide to discovering interests and potential career paths for teens"),
            ("isbn", .str "9781523516193"),
            ("url", .str "https://www.google.com/search?q=You+Can+Be+Anything+career+book+teens"),
            ("type", .str "educational_book") ] ]),
    ("16-18",
      [ .obj
          [ ("title", .str "What Color Is Your Parachute? for Teens"),
            ("author", .str "Carol Christen"),
            ("description", .str "Career guidance book specifically written for teenagers"),
            ("isbn", .str "9781580081412"),
            ("url", .str "https://www.google.com/search?q=What+Color+Is+Your+Parachute+for+Teens+Carol+Christen+book"),
            ("type", .str "educational_book") ] ]) ]

/-- `ageAppropriateBooks[ageRange] || [default]`. -/
def fallbackBooks (ageRange : String) : List JsonVal :=
  match ageAppropriateBooks.find? (fun p => p.1 == ageRange) with
  | some p => p.2
  | none =>
    [ .obj
        [ ("title", .str "Career Exploration Guide"),
          ("author", .str "Various Authors"),
          ("description", .str "Explores different career paths for young readers"),
          ("isbn", .str ""),
          ("url", .str "https://www.google.com/search?q=career+books+children"),
          ("type", .str "educational_book") ] ]

/-- `generateEducationalGames` (the `careerAreas` argument only feeds the
prompt of the external generator call, whose outcome is `gen`). -/
def generateEducationalGames (parse : String → Option JsonVal) (gen : Except Unit String)
    (careerAreas : List String) (ageRange : String) : List JsonVal :=
  match gen with
  | .error _ => fallbackGames ageRange
  | .ok content =>
    match parse (extractJson (parseOkOf parse) content) with
    | none => fallbackGames ageRange
    | some v =>
      match normalizeCategory v "games" with
      | none => fallbackGames ageRange
      | some items => items.map (fun g => stampType g "educational_game")

/-- `generateBookRecommendations`. -/
def generateBookRecommendations (parse : String → Option JsonVal) (gen : Except Unit String)
    (careerAreas : List String) (ageRange : String) : List JsonVal :=
  match gen with
  | .error _ => fallbackBooks ageRange
  | .ok content =>
    match parse (extractJson (parseOkOf parse) content) with
    | none => fallbackBooks ageRange
    | some v =>
      match normalizeCategory v "books" with
      | none => fallbackBooks ageRange
      | some items => items.map (fun b => stampType b "educational_book")

/-- `generateResourceRecommendations`. -/
def generateResourceRecommendations (parse : String → Option JsonVal) (gen : Except Unit String)
    (careerAreas : List String) (ageRange : String) : List JsonVal :=
  match gen with
  | .error _ => fallbackResources ageRange
  | .ok content =>
    match parse (extractJson (parseOkOf parse) content) with
    | none => fallbackResources ageRange
    | some v =>
      match normalizeCategory v "resources" with
      | none => fallbackResources ageRange
      | some items => items.map stampResource

/-! ### C6: category behaviour on unparseable generator output -/

theorem fallbackGames_ne_nil (ageRange : String) : fallbackGames ageRange ≠ [] := by
  simp [fallbackGames]

theorem fallbackResources_ne_nil (ageRange : String) : fallbackResources ageRange ≠ [] := by
  simp [fallbackResources]

theorem fallbackBooks_ne_nil (ageRange : String) : fallbackBooks ageRange ≠ [] := by
  unfold fallbackBooks
  rcases h : ageAppropriateBooks.find? (fun p => p.1 == ageRange) with _ | p
  · simp [h]
  · have hp : p ∈ ageAppropriateBooks := List.mem_of_find?_eq_some h
    simp only [ageAppropriateBooks, List.mem_cons, List.mem_singleton] at hp
    rcases hp with rfl | rfl | rfl | rfl | hf
    · simp [h]
    · simp [h]
    · simp [h]
    · simp [h]
    · exact absurd hf (List.not_mem_nil p)

/-- C6 amended: for each AI-generated category, when the generator response
still fails to parse after the one cleanup retry, `extractJson` degrades it
to the literal `"[]"`, which parses as the empty array — so the category
returns the EMPTY list, not its hardcoded fallback.  The hardcoded fallback
list (age-range-keyed for books and resources, generic for games) is
returned, and is never empty, exactly when the generator call itself throws
(transport error); in neither case does the operation throw. -/
theorem category_fallback_amended_c6 (parse : String → Option JsonVal)
    (careerAreas : List String) (ageRange : String) (content : String)
    (h1 : parseOkOf parse (firstCandidate content) = false)
    (h2 : parseOkOf parse (cleanupText content) = false)
    (h3 : parse "[]" = some (JsonVal.arr [])) :
    generateEducationalGames parse (Except.ok content) careerAreas ageRange = [] ∧
    generateBookRecommendations parse (Except.ok content) careerAreas ageRange = [] ∧
    generateResourceRecommendations parse (Except.ok content) careerAreas ageRange = [] ∧
    generateEducationalGames parse (Except.error ()) careerAreas ageRange
      = fallbackGames ageRange ∧
    generateBookRecommendations parse (Except.error ()) careerAreas ageRange
      = fallbackBooks ageRange ∧
    generateResourceRecommendations parse (Except.error ()) careerAreas ageRange
      = fallbackResources ageRange ∧
    fallbackGames ageRange ≠ [] ∧ fallbackBooks ageRange ≠ [] ∧
    fallbackResources ageRange ≠ [] := by
  have hpok : parseOkOf parse "[]" = true := by simp [parseOkOf, h3]
  have hext : extractJson (parseOkOf parse) content = "[]" :=
    (extractJson_parses_aux (parseOkOf parse) content hpok).2 h1 h2
  refine ⟨?_, ?_, ?_, rfl, rfl, rfl, fallbackGames_ne_nil ageRange,
    fallbackBooks_ne_nil ageRange, fallbackResources_ne_nil ageRange⟩ <;>
    simp [generateEducationalGames, generateBookRecommendations,
      generateResourceRecommendations, hext, h3, normalizeCategory]

/-- C6 counterexample: at concrete unparseable generator output, every
category returns the empty list — not the hardcoded fallback the claim
promises ("never an empty list"). -/
theorem category_garbage_counterexample_c6 :
    generateEducationalGames parseDemo (Except.ok "no structured data today") ["Art"] "6-8"
        = [] ∧
    generateBookRecommendations parseDemo (Except.ok "no structured data today") ["Art"] "6-8"
        = [] ∧
    generateResourceRecommendations parseDemo (Except.ok "no structured data today") ["Art"]
        "6-8" = [] :=
  ⟨rfl, rfl, rfl⟩

/-- Witness for the amended C6 at concrete inputs. -/
theorem category_fallback_amended_c6_witness :
    generateEducationalGames parseDemo (Except.ok "model refused") ["Art"] "6-8" = [] ∧
    generateBookRecommendations parseDemo (Except.ok "model refused") ["Art"] "6-8" = [] ∧
    generateResourceRecommendations parseDemo (Except.ok "model refused") ["Art"] "6-8" = [] ∧
    generateEducationalGames parseDemo (Except.error ()) ["Art"] "6-8" = fallbackGames "6-8" ∧
    generateBookRecommendations parseDemo (Except.error ()) ["Art"] "6-8"
      = fallbackBooks "6-8" ∧
    generateResourceRecommendations parseDemo (Except.error ()) ["Art"] "6-8"
      = fallbackResources "6-8" ∧
    fallbackGames "6-8" ≠ [] ∧ fallbackBooks "6-8" ≠ [] ∧ fallbackResources "6-8" ≠ [] :=
  category_fallback_amended_c6 parseDemo ["Art"] "6-8" "model refused" rfl rfl rfl

/-! ### `AiService.getVerifiedEducationalContent` (part_001 lines 711-751)

The video categories are fetched through `YouTubeService`, whose
implementation file (`youtube.service.ts`) is not part of the sources. -/

structure YTVideo where
  title : String
  url : String
  description : String
  duration : String
  topic : String

/-- Modelled from the spec: `youtube.service.ts` (the `YouTubeService`
implementation behind `searchEducationalVideos`) is missing from the
sources; per the spec ("For videos: delegate to the external search
provider ...; on transport failure return an empty list rather than failing
the bundle"), a rejecting provider call yields the empty list and the
service itself does not throw. -/
def searchEducationalVideos (call : Except Unit (List YTVideo)) : List YTVideo :=
  match call with
  | .ok vs => vs
  | .error _ => []

/-- The outcomes of the four outbound calls made while building a bundle. -/
structure ContentEnv where
  videoSearch : Except Unit (List YTVideo)
  gamesGen : Except Unit String
  booksGen : Except Unit String
  resourcesGen : Except Unit String

/-- The slice of an analysis object the bundle builder reads. -/
structure AnalysisLite where
  topCareerAreas : List String
  ageRange : String

structure ContentBundle where
  videos : List YTVideo
  games : List JsonVal
  books : List JsonVal
  resources : List JsonVal

/-- `getVerifiedEducationalContent`: fetch videos, then generate each AI
category independently (`videos || []` etc. keep the arrays as-is; the
catch-all branch returning four empty arrays is unreachable here because
every step is total in the model — the generators never throw and the
modelled video service returns `[]` on rejection). -/
def getVerifiedEducationalContent (parse : String → Option JsonVal) (env : ContentEnv)
    (analysis : AnalysisLite) : ContentBundle :=
  { videos := searchEducationalVideos env.videoSearch
    games := generateEducationalGames parse env.gamesGen analysis.topCareerAreas
      analysis.ageRange
    books := generateBookRecommendations parse env.booksGen analysis.topCareerAreas
      analysis.ageRange
    resources := generateResourceRecommendations parse env.resourcesGen
      analysis.topCareerAreas analysis.ageRange }

/-- C3: when the video provider call rejects, the bundle's `videos` is `[]`
while `games`, `books` and `resources` are exactly what their own pipelines
(with their own fallbacks) produce — a video failure never blanks the other
categories, and the bundle builder itself never throws (it is a total
function). -/
theorem video_failure_independent_c3 (parse : String → Option JsonVal) (env : ContentEnv)
    (analysis : AnalysisLite) (h : env.videoSearch = Except.error ()) :
    (getVerifiedEducationalContent parse env analysis).videos = [] ∧
    (getVerifiedEducationalContent parse env analysis).games
      = generateEducationalGames parse env.gamesGen analysis.topCareerAreas
          analysis.ageRange ∧
    (getVerifiedEducationalContent parse env analysis).books
      = generateBookRecommendations parse env.booksGen analysis.topCareerAreas
          analysis.ageRange ∧
    (getVerifiedEducationalContent parse env analysis).resources
      = generateResourceRecommendations parse env.resourcesGen analysis.topCareerAreas
          analysis.ageRange := by
  refine ⟨?_, rfl, rfl, rfl⟩
  simp [getVerifiedEducationalContent, searchEducationalVideos, h]

/-- Witness for C3: a rejecting video call next to a failing games
generator and succeeding-but-garbage book/resource generators. -/
theorem video_failure_independent_c3_witness :
    (getVerifiedEducationalContent parseDemo
        ⟨Except.error (), Except.error (), Except.ok "garbled", Except.ok "garbled"⟩
        ⟨["Art"], "6-8"⟩).videos = [] ∧
    (getVerifiedEducationalContent parseDemo
        ⟨Except.error (), Except.error (), Except.ok "garbled", Except.ok "garbled"⟩
        ⟨["Art"], "6-8"⟩).games
      = generateEducationalGames parseDemo (Except.error ()) ["Art"] "6-8" ∧
    (getVerifiedEducationalContent parseDemo
        ⟨Except.error (), Except.error (), Except.ok "garbled", Except.ok "garbled"⟩
        ⟨["Art"], "6-8"⟩).books
      = generateBookRecommendations parseDemo (Except.ok "garbled") ["Art"] "6-8" ∧
    (getVerifiedEducationalContent parseDemo
        ⟨Except.error (), Except.error (), Except.ok "garbled", Except.ok "garbled"⟩
        ⟨["Art"], "6-8"⟩).resources
      = generateResourceRecommendations parseDemo (Except.ok "garbled") ["Art"] "6-8" :=
  video_failure_independent_c3 parseDemo
    ⟨Except.error (), Except.error (), Except.ok "garbled", Except.ok "garbled"⟩
    ⟨["Art"], "6-8"⟩ rfl

/-! ### Trait/career records and the analysis-input variant

`extractPersonalityTraits`/`extractCareerRecommendations` receive
`quiz.analysis`, which is dynamically typed: an object that may carry
already-typed `personalityTraits`/`topCareerAreas` arrays (whose elements
are either records or plain strings), or free text (legacy records), or an
object without those arrays, which the source stringifies and scans as
text.  The variant below carries the stringified form (`asText`) as data
for the scanning path. -/

structure TraitRec where
  emoji : String
  trait : String
  description : String
deriving DecidableEq

structure CareerRec where
  emoji : String
  career : String
  matchPercentage : Nat
deriving DecidableEq

inductive TraitIn where
  | full (r : TraitRec)
  | plain (s : String)
deriving DecidableEq

inductive CareerIn where
  | full (r : CareerRec)
  | plain (s : String)
deriving DecidableEq

inductive AnalysisIn where
  | structured (personalityTraits : Option (List TraitIn))
      (topCareerAreas : Option (List CareerIn)) (asText : String)
  | legacy (text : String)
deriving DecidableEq

/-! ### `AiService.getLatestQuiz` (part_001 lines 1472-1595) and the flag
self-repair of its callers (lines 1140-1149)

The document store is a list of records (natural order = insertion order,
which is what an unsorted Mongo `findOne` scans); `findOne().sort(\x7bcreatedAt:
-1\x7d)` picks the record with maximal `createdAt` (first such record on a
tie); `find().limit(100)` is the first 100 records.  `save()` replaces the
record with the same id and is counted. -/

structure Quiz where
  id : String
  user : String
  ageRange : String
  questions : List Question
  answers : List Int
  careerAreas : List String
  submitted : Bool
  completed : Bool
  submittedAt : Option Nat
  createdAt : Nat
  analysis : Option AnalysisIn

/-- `findOne(\x7b _id: quizId, user: userIdStr \x7d)`. -/
def findQuizByIdAndUser (db : List Quiz) (qid uid : String) : Option Quiz :=
  db.find? (fun q => q.id == qid && q.user == uid)

/-- `findOne(\x7b _id: quizId \x7d)` — accepted even when the owner differs. -/
def findQuizById (db : List Quiz) (qid : String) : Option Quiz :=
  db.find? (fun q => q.id == qid)

/-- The manual scan of `find().limit(100)` for a stored id whose string
form contains the (possibly truncated) supplied id. -/
def findSubstringMatch (db : List Quiz) (qid : String) : Option Quiz :=
  (db.take 100).find? (fun q => containsSub q.id.toList qid.toList)

/-- `findOne(filter).sort(\x7b createdAt: -1 \x7d)`. -/
def latestBy (db : List Quiz) (p : Quiz → Bool) : Option Quiz :=
  (db.filter p).foldl
    (fun acc q =>
      match acc with
      | none => some q
      | some b => if b.createdAt < q.createdAt then some q else acc)
    none

/-- The self-repair mutation: both flags true, `submittedAt` set if absent. -/
def repairQuiz (now : Nat) (q : Quiz) : Quiz :=
  { q with submitted := true, completed := true, submittedAt := some (q.submittedAt.getD now) }

/-- `quiz.save()`: replace the stored record with the same id. -/
def saveQuiz (db : List Quiz) (q : Quiz) : List Quiz :=
  db.map (fun r => if r.id == q.id then q else r)

/-- The outcome of a resolution: the record found (if any), the store after
any repair writes, and how many `save()` calls were made. -/
structure ResolveOut where
  quiz : Option Quiz
  db : List Quiz
  saves : Nat
deriving Inhabited

/-- The no-id / all-id-lookups-failed tail of `getLatestQuiz`: most recent
submitted, else most recent completed, else most recent of any status — the
last branch repairing (and saving) a record that has answers but neither
flag set. -/
def latestFallback (now : Nat) (db : List Quiz) (uid : String) : ResolveOut :=
  match latestBy db (fun q => q.user == uid && q.submitted) with
  | some q => ⟨some q, db, 0⟩
  | none =>
    match latestBy db (fun q => q.user == uid && q.completed) with
    | some q => ⟨some q, db, 0⟩
    | none =>
      match latestBy db (fun q => q.user == uid) with
      | none => ⟨none, db, 0⟩
      | some q =>
        if !q.submitted && !q.completed && !q.answers.isEmpty then
          let q' := repairQuiz now q
          ⟨some q', saveQuiz db q', 1⟩
        else ⟨some q, db, 0⟩

/-- `getLatestQuiz(userId, quizId?)`: exact id+user, then id only, then
substring scan over a 100-record window, then the most-recent fallbacks;
`none` (not an error) when nothing matches. -/
def getLatestQuizM (now : Nat) (db : List Quiz) (uid : String) (qid : Option String) :
    ResolveOut :=
  match qid with
  | none => latestFallback now db uid
  | some i =>
    match findQuizByIdAndUser db i uid with
    | some q => ⟨some q, db, 0⟩
    | none =>
      match findQuizById db i with
      | some q => ⟨some q, db, 0⟩
      | none =>
        match findSubstringMatch db i with
        | some q => ⟨some q, db, 0⟩
        | none => latestFallback now db uid

/-- The resolution as used by `generateEducationalContent` /
`getCareerRecommendations`: resolve, then repair-and-save the returned
record when it has answers but a false flag
(`(!quiz.submitted || !quiz.completed) && quiz.answers.length > 0`). -/
def resolveAndRepair (now : Nat) (db : List Quiz) (uid : String) (qid : Option String) :
    ResolveOut :=
  let r := getLatestQuizM now db uid qid
  match r.quiz with
  | none => r
  | some q =>
    if (!q.submitted || !q.completed) && !q.answers.isEmpty then
      let q' := repairQuiz now q
      ⟨some q', saveQuiz r.db q', r.saves + 1⟩
    else r

/-! ### C4: the self-repair persists exactly once -/

theorem latestFallback_unsaved (now : Nat) (db : List Quiz) (uid : String) (q : Quiz)
    (h : (latestFallback now db uid).quiz = some q) (hs : q.submitted = false) :
    latestFallback now db uid = ⟨some q, db, 0⟩ := by
  unfold latestFallback at h ⊢
  rcases h1 : latestBy db (fun r => r.user == uid && r.submitted) with _ | q1
  · rcases h2 : latestBy db (fun r => r.user == uid && r.completed) with _ | q2
    · rcases h3 : latestBy db (fun r => r.user == uid) with _ | q3
      · simp [h1, h2, h3] at h
      · by_cases hrep : (!q3.submitted && !q3.completed && !q3.answers.isEmpty) = true
        · simp only [h1, h2, h3, hrep, if_true] at h
          simp only [Option.some.injEq] at h
          rw [← h] at hs
          simp [repairQuiz] at hs
        · simp only [h1, h2, h3] at h ⊢
          rw [if_neg hrep] at h
          rw [if_neg hrep]
          simp only [Option.some.injEq] at h
          simp [h]
    · simp only [h1, h2] at h ⊢
      simp only [Option.some.injEq] at h
      simp [h]
  · simp only [h1] at h ⊢
    simp only [Option.some.injEq] at h
    simp [h]

theorem getLatestQuizM_unsaved (now : Nat) (db : List Quiz) (uid : String) (qid : Option String)
    (q : Quiz) (h : (getLatestQuizM now db uid qid).quiz = some q) (hs : q.submitted = false) :
    getLatestQuizM now db uid qid = ⟨some q, db, 0⟩ := by
  cases qid with
  | none =>
    simp only [getLatestQuizM] at h ⊢
    exact latestFallback_unsaved now db uid q h hs
  | some i =>
    simp only [getLatestQuizM] at h ⊢
    rcases h1 : findQuizByIdAndUser db i uid with _ | q1
    · rcases h2 : findQuizById db i with _ | q2
      · rcases h3 : findSubstringMatch db i with _ | q3
        · simp only [h1, h2, h3] at h ⊢
          exact latestFallback_unsaved now db uid q h hs
        · simp only [h1, h2, h3] at h ⊢
          simp only [Option.some.injEq] at h
          simp [h]
      · simp only [h1, h2] at h ⊢
        simp only [Option.some.injEq] at h
        simp [h]
    · simp only [h1] at h ⊢
      simp only [Option.some.injEq] at h
      simp [h]

/-- C4: whenever resolution yields a record with non-empty answers and
`submitted = false`, the combined resolve-and-repair operation returns the
repaired record — `submitted` and `completed` both true, with the
submission timestamp kept if present and set to the current time if absent
— and performs exactly one `save()` (the resolution itself cannot have
saved, since its only write marks the returned record submitted). -/
theorem resolve_repair_once_c4 (now : Nat) (db : List Quiz) (uid : String)
    (qid : Option String) (q : Quiz)
    (hres : (getLatestQuizM now db uid qid).quiz = some q)
    (hans : q.answers ≠ []) (hsub : q.submitted = false) :
    resolveAndRepair now db uid qid
        = ⟨some (repairQuiz now q), saveQuiz db (repairQuiz now q), 1⟩ ∧
      (repairQuiz now q).submitted = true ∧
      (repairQuiz now q).completed = true ∧
      (repairQuiz now q).submittedAt.isSome = true ∧
      (q.submittedAt = none → (repairQuiz now q).submittedAt = some now) ∧
      (∀ t, q.submittedAt = some t → (repairQuiz now q).submittedAt = some t) := by
  have hg := getLatestQuizM_unsaved now db uid qid q hres hsub
  refine ⟨?_, rfl, rfl, ?_, ?_, ?_⟩
  · unfold resolveAndRepair
    rw [hg]
    simp [hsub, List.isEmpty_iff, hans]
  · simp [repairQuiz]
  · intro hnone
    simp [repairQuiz, hnone]
  · intro t ht
    simp [repairQuiz, ht]

/-- A three-record store exercising the C4 witness: the resolved record for
`u1` has answers but neither completion flag. -/
def demoQuizUnsubmitted : Quiz :=
  { id := "aaa111", user := "u1", ageRange := "6-8"
    questions := List.replicate 5 demoQuestion, answers := [0, 0, 3, 3, 1]
    careerAreas := ["Art", "Science", "Technology", "Nature", "Communication"]
    submitted := false, completed := false, submittedAt := none, createdAt := 7
    analysis := none }

/-- Witness for C4 at a concrete store and id. -/
theorem resolve_repair_once_c4_witness :
    resolveAndRepair 42 [demoQuizUnsubmitted] "u1" (some "aaa111")
        = ⟨some (repairQuiz 42 demoQuizUnsubmitted),
           saveQuiz [demoQuizUnsubmitted] (repairQuiz 42 demoQuizUnsubmitted), 1⟩ ∧
      (repairQuiz 42 demoQuizUnsubmitted).submitted = true ∧
      (repairQuiz 42 demoQuizUnsubmitted).completed = true ∧
      (repairQuiz 42 demoQuizUnsubmitted).submittedAt.isSome = true ∧
      (demoQuizUnsubmitted.submittedAt = none →
        (repairQuiz 42 demoQuizUnsubmitted).submittedAt = some 42) ∧
      (∀ t, demoQuizUnsubmitted.submittedAt = some t →
        (repairQuiz 42 demoQuizUnsubmitted).submittedAt = some t) :=
  resolve_repair_once_c4 42 [demoQuizUnsubmitted] "u1" (some "aaa111")
    demoQuizUnsubmitted rfl (by simp [demoQuizUnsubmitted]) rfl

/-! ### C5: the resolution order -/

/-- Modelled from the spec's words, as the refinement counterpart for the
resolution-order claim: with an id — exact match on id and user, then exact
match on id only, then the first record in a window of at most 100 whose
stringified id contains the supplied id; with no id or after all of those
fail — the most recent record for the user with `submitted = true`, else
the most recent with `completed = true`, else the most recent regardless of
flags; `none` when nothing matches. -/
def resolveQuizSpec (db : List Quiz) (uid : String) (qid : Option String) : Option Quiz :=
  let fb :=
    match latestBy db (fun q => q.user == uid && q.submitted) with
    | some q => some q
    | none =>
      match latestBy db (fun q => q.user == uid && q.completed) with
      | some q => some q
      | none => latestBy db (fun q => q.user == uid)
  match qid with
  | none => fb
  | some i =>
    match findQuizByIdAndUser db i uid with
    | some q => some q
    | none =>
      match findQuizById db i with
      | some q => some q
      | none =>
        match findSubstringMatch db i with
        | some q => some q
        | none => fb

/-- C5: `getLatestQuiz` returns exactly the record (by id) that the spec's
resolution order prescribes — the self-repair in the last-resort branch
changes flags but never which record is chosen, and the result is `none`
(not an error) exactly when the spec's order finds nothing. -/
theorem resolution_order_c5 (now : Nat) (db : List Quiz) (uid : String) (qid : Option String) :
    (getLatestQuizM now db uid qid).quiz.map Quiz.id
      = (resolveQuizSpec db uid qid).map Quiz.id := by
  have hfb : (latestFallback now db uid).quiz.map Quiz.id
      = (match latestBy db (fun q => q.user == uid && q.submitted) with
         | some q => some q
         | none =>
           match latestBy db (fun q => q.user == uid && q.completed) with
           | some q => some q
           | none => latestBy db (fun q => q.user == uid)).map Quiz.id := by
    unfold latestFallback
    rcases h1 : latestBy db (fun q => q.user == uid && q.submitted) with _ | q1
    · rcases h2 : latestBy db (fun q => q.user == uid && q.completed) with _ | q2
      · rcases h3 : latestBy db (fun q => q.user == uid) with _ | q3
        · simp
        · by_cases hr : (!q3.submitted && !q3.completed && !q3.answers.isEmpty) = true <;>
            simp [hr, repairQuiz]
      · simp
    · simp
  cases qid with
  | none =>
    simpa [getLatestQuizM, resolveQuizSpec] using hfb
  | some i =>
    simp only [getLatestQuizM, resolveQuizSpec]
    rcases h1 : findQuizByIdAndUser db i uid with _ | q1
    · rcases h2 : findQuizById db i with _ | q2
      · rcases h3 : findSubstringMatch db i with _ | q3
        · simpa using hfb
        · simp
      · simp
    · simp

/-! ### Trait/career extraction (part_001 lines 1597-1813) and the
default substitution of `getCareerRecommendations` (lines 1361-1407)

`Math.random()`-based match percentages are modelled by a draw function
`pct : Nat → Nat` indexed by the element's position. -/

def traitEmojiMap : List (String × String) :=
  [ ("creative", "🎨"), ("analytical", "🧠"), ("social", "👥"), ("practical", "🔧"),
    ("leadership", "👑"), ("artistic", "🎭"), ("technical", "💻"), ("helpful", "🤝"),
    ("curious", "🔍"), ("innovative", "💡"), ("organized", "📋"), ("adaptable", "🔄"),
    ("detail-oriented", "🔎"), ("communicative", "🗣️"), ("collaborative", "🤲"),
    ("persistent", "💪"), ("problem-solver", "🧩") ]

/-- `getTraitEmoji`: direct case-insensitive match, then partial match in
either direction, then the default sparkle. -/
def getTraitEmoji (trait : String) : String :=
  let norm := toLowerStr trait
  match traitEmojiMap.find? (fun p => norm == toLowerStr p.1) with
  | some p => p.2
  | none =>
    match traitEmojiMap.find? (fun p =>
        containsSub norm.toList (toLowerStr p.1).toList ||
        containsSub (toLowerStr p.1).toList norm.toList) with
    | some p => p.2
    | none => "✨"

def careerEmojiMap : List (String × String) :=
  [ ("Art", "🎨"), ("Artist", "🎨"), ("Science", "🔬"), ("Scientist", "🔬"),
    ("Technology", "💻"), ("Programming", "💻"), ("Programmer", "💻"), ("Nature", "🌱"),
    ("Communication", "🗣️"), ("Leadership", "👑"), ("Business", "💼"),
    ("Healthcare", "🏥"), ("Doctor", "👩‍⚕️"), ("Education", "📚"), ("Teacher", "👩‍🏫"),
    ("Engineering", "⚙️"), ("Engineer", "⚙️"), ("Writing", "✍️"), ("Writer", "✍️"),
    ("Design", "🎨"), ("Designer", "🎨"), ("Culinary", "👨‍🍳"), ("Chef", "👨‍🍳"),
    ("Music", "🎵"), ("Musician", "🎵") ]

/-- `getCareerEmoji`: direct match, then lower-cased partial match, then
the default star. -/
def getCareerEmoji (careerArea : String) : String :=
  match careerEmojiMap.find? (fun p => p.1 == careerArea) with
  | some p => p.2
  | none =>
    match careerEmojiMap.find? (fun p =>
        containsSub (toLowerStr careerArea).toList (toLowerStr p.1).toList) with
    | some p => p.2
    | none => "🌟"

/-- The ordered trait keyword patterns (`/creative/i` etc.). -/
def traitKeywords : List String :=
  ["creative", "analytical", "social", "practical", "leadership", "artistic",
   "technical", "helpful", "curious", "innovative"]

/-- The legacy text scan for traits: one record per keyword found, in scan
order. -/
def scanTraits (text : String) : List TraitRec :=
  (traitKeywords.filter (fun k => containsCI text k)).map
    (fun k => ⟨getTraitEmoji k, k, "Shows strong " ++ k ++ " tendencies"⟩)

/-- `extractPersonalityTraits`: pass through (emoji-filling) a typed
`personalityTraits` array; otherwise scan the (stringified) text.  The
internal try/catch returning `[]` has no reachable throw in the model. -/
def extractPersonalityTraits (a : AnalysisIn) : List TraitRec :=
  match a with
  | .structured (some ts) _ _ =>
    ts.map (fun t =>
      match t with
      | .full r => r
      | .plain s => ⟨getTraitEmoji s, s, "Shows strong " ++ s ++ " tendencies"⟩)
  | .structured none _ asText => scanTraits asText
  | .legacy s => scanTraits s

/-- The ordered career keyword list and its parallel emoji row. -/
def careerKeywords : List String :=
  ["Artist", "Scientist", "Teacher", "Engineer", "Doctor", "Writer", "Designer",
   "Programmer", "Chef", "Musician"]

def careerScanEmojis : List String :=
  ["🎨", "🔬", "👩‍🏫", "⚙️", "👩‍⚕️", "✍️", "🎨", "💻", "👨‍🍳", "🎵"]

/-- The legacy text scan for careers, truncated to the top 5. -/
def scanCareers (pct : Nat → Nat) (text : String) : List CareerRec :=
  (((careerKeywords.zip careerScanEmojis).enum.filter
      (fun p => containsCI text p.2.1)).map
    (fun p => ⟨p.2.2, p.2.1, pct p.1⟩)).take 5

/-- `extractCareerRecommendations`: pass through (emoji/percentage-filling)
a typed `topCareerAreas` array truncated to 5; otherwise scan the
(stringified) text. -/
def extractCareerRecommendations (pct : Nat → Nat) (a : AnalysisIn) : List CareerRec :=
  match a with
  | .structured _ (some cs) _ =>
    (cs.enum.map (fun p =>
      match p.2 with
      | .full r => r
      | .plain s => ⟨getCareerEmoji s, s, pct p.1⟩)).take 5
  | .structured _ none asText => scanCareers pct asText
  | .legacy s => scanCareers pct s

/-- The built-in default trait records substituted for an empty extraction. -/
def defaultTraitsFinal : List TraitRec :=
  [ ⟨"✨", "adaptable", "Can adjust to new situations"⟩,
    ⟨"🔍", "curious", "Enjoys exploring and learning new things"⟩,
    ⟨"🧠", "analytical", "Good at solving problems"⟩ ]

/-- The built-in default career records substituted for an empty extraction. -/
def defaultCareersFinal : List CareerRec :=
  [ ⟨"🎨", "Designer", 85⟩, ⟨"💻", "Programmer", 82⟩, ⟨"👩‍🏫", "Teacher", 80⟩ ]

structure RecsResult where
  traits : List TraitRec
  careers : List CareerRec

/-- The success path of `getCareerRecommendations` once a usable quiz is in
hand: extract, then substitute the built-in defaults for an empty list
(`traits.length ? traits : [...]`). -/
def getCareerRecommendationsCore (pct : Nat → Nat) (analysis : AnalysisIn) : RecsResult :=
  let traits := extractPersonalityTraits analysis
  let careers := extractCareerRecommendations pct analysis
  ⟨if traits.isEmpty then defaultTraitsFinal else traits,
   if careers.isEmpty then defaultCareersFinal else careers⟩

/-- `getCareerRecommendations` after the repair phase: the success path
runs exactly when the resolved quiz is usable — `submitted || completed`
and an analysis present; `none` models the fallback-recommendations path
taken otherwise. -/
def getCareerRecommendationsFor (pct : Nat → Nat) (quiz : Option Quiz) : Option RecsResult :=
  match quiz with
  | some q =>
    match q.analysis with
    | some a =>
      if q.submitted || q.completed then some (getCareerRecommendationsCore pct a)
      else none
    | none => none
  | none => none

/-- C10: for a resolved usable quiz (submitted or completed, with an
analysis), `getCareerRecommendations` returns non-empty `traits` and
`careers` arrays; whenever an extraction comes back empty, the built-in
default records are substituted rather than the empty list being returned
(and the extractors themselves are total, so no throw can occur). -/
theorem career_recs_nonempty_c10 (pct : Nat → Nat) (q : Quiz) (a : AnalysisIn)
    (ha : q.analysis = some a) (husable : (q.submitted || q.completed) = true) :
    ∃ r, getCareerRecommendationsFor pct (some q) = some r ∧
      r.traits ≠ [] ∧ r.careers ≠ [] ∧
      (extractPersonalityTraits a = [] → r.traits = defaultTraitsFinal) ∧
      (extractCareerRecommendations pct a = [] → r.careers = defaultCareersFinal) := by
  refine ⟨getCareerRecommendationsCore pct a, ?_, ?_, ?_, ?_, ?_⟩
  · simp [getCareerRecommendationsFor, ha, husable]
  · by_cases ht : extractPersonalityTraits a = [] <;>
      simp [getCareerRecommendationsCore, List.isEmpty_iff, ht, defaultTraitsFinal]
  · by_cases hc : extractCareerRecommendations pct a = [] <;>
      simp [getCareerRecommendationsCore, List.isEmpty_iff, hc, defaultCareersFinal]
  · intro ht
    simp [getCareerRecommendationsCore, List.isEmpty_iff, ht]
  · intro hc
    simp [getCareerRecommendationsCore, List.isEmpty_iff, hc]

/-- A usable quiz whose analysis object lacks typed trait/career arrays and
whose stringified form matches no keyword, so both extractions are empty. -/
def demoQuizUsable : Quiz :=
  { id := "bbb222", user := "u2", ageRange := "6-8"
    questions := List.replicate 5 demoQuestion, answers := [0, 0, 3, 3, 1]
    careerAreas := ["Art", "Science", "Technology", "Nature", "Communication"]
    submitted := true, completed := true, submittedAt := some 3, createdAt := 3
    analysis := some (AnalysisIn.structured none none "plain summary with no keywords") }

/-- Witness for C10: both extractions are empty here, so the defaults are
substituted and the result is still non-empty. -/
theorem career_recs_nonempty_c10_witness :
    ∃ r, getCareerRecommendationsFor (fun _ => 85) (some demoQuizUsable) = some r ∧
      r.traits ≠ [] ∧ r.careers ≠ [] ∧
      (extractPersonalityTraits
          (AnalysisIn.structured none none "plain summary with no keywords") = [] →
        r.traits = defaultTraitsFinal) ∧
      (extractCareerRecommendations (fun _ => 85)
          (AnalysisIn.structured none none "plain summary with no keywords") = [] →
        r.careers = defaultCareersFinal) :=
  career_recs_nonempty_c10 (fun _ => 85) demoQuizUsable
    (AnalysisIn.structured none none "plain summary with no keywords") rfl rfl
